import Mathlib

/-!
# ThemeManager (fishui, `src/thememanager.cpp`)

A shallow embedding of the theme cache of `ThemeManager`: the member
initialisers of the constructor, `initData`, `initDBusSignals`, the four D-Bus
slots and `setAccentColor`.  Every operation is a pure function from the
object state (and the D-Bus interface it constructs) to the new state together
with the list of Qt signals it emits, in emission order.
-/

namespace FishUI

/-! ## Values -/

/-- A `qreal` (C++ `double`), kept as its IEEE-754 binary64 bit pattern:
bit 63 is the sign, bits 52..62 the exponent, bits 0..51 the fraction.  A
double is a pattern below `2 ^ 64`; assignment copies the pattern. -/
structure QReal where
  bits : Nat
deriving DecidableEq, Repr

/-- NaN: exponent all ones and a non-zero fraction. -/
def QReal.isNaN (x : QReal) : Bool :=
  (x.bits / 2 ^ 52) % 2 ^ 11 == 2047 && x.bits % 2 ^ 52 != 0

/-- Positive or negative zero: every bit below the sign bit is clear. -/
def QReal.isZero (x : QReal) : Bool :=
  x.bits % 2 ^ 63 == 0

/-- The C++ operator `!=` on two doubles: a NaN differs from everything
(itself included), the two zeros do not differ, every other pair differs
exactly when the bit patterns do. -/
def QReal.ne (a b : QReal) : Bool :=
  a.isNaN || b.isNaN || !((a.isZero && b.isZero) || a.bits == b.bits)

/-- The double `0.0`, the result of `QVariant().toReal()`. -/
def QReal.zero : QReal := ⟨0⟩

/-- The double `9.0` (`0x4022000000000000`), the constructor default. -/
def QReal.nine : QReal := ⟨0x4022000000000000⟩

/-- The double `11.5` (`0x4027000000000000`). -/
def QReal.elevenAndHalf : QReal := ⟨0x4027000000000000⟩

/-- A `QColor`, as its red, green and blue channels. -/
structure QColor where
  red : Nat
  green : Nat
  blue : Nat
deriving DecidableEq, Repr

/-- Modelled from the spec: `thememanager.h` is not among the sources, so the
enumerators `ACCENTCOLOR_*` and the colour members `m_*Color` it declares are
taken as parameters.  The spec names the seven codes BLUE, RED, GREEN, PURPLE,
PINK, ORANGE, GREY and their fixed colour constants, without their values. -/
structure ThemeConstants where
  ACCENTCOLOR_BLUE : Int
  ACCENTCOLOR_RED : Int
  ACCENTCOLOR_GREEN : Int
  ACCENTCOLOR_PURPLE : Int
  ACCENTCOLOR_PINK : Int
  ACCENTCOLOR_ORANGE : Int
  ACCENTCOLOR_GREY : Int
  m_blueColor : QColor
  m_redColor : QColor
  m_greenColor : QColor
  m_purpleColor : QColor
  m_pinkColor : QColor
  m_orangeColor : QColor
  m_greyColor : QColor
deriving DecidableEq, Repr

/-- The seven enumerators, in the order of the `switch` in `setAccentColor`. -/
def ThemeConstants.codes (k : ThemeConstants) : List Int :=
  [k.ACCENTCOLOR_BLUE, k.ACCENTCOLOR_RED, k.ACCENTCOLOR_GREEN, k.ACCENTCOLOR_PURPLE,
   k.ACCENTCOLOR_PINK, k.ACCENTCOLOR_ORANGE, k.ACCENTCOLOR_GREY]

/-- What the source and the spec presuppose of the absent header: the `case`
labels of the `switch` are pairwise distinct (C++ rejects a duplicate label),
and the value `-1` used by the constructor for "unset" is none of them. -/
def ThemeConstants.WellFormed (k : ThemeConstants) : Prop :=
  k.codes.Nodup ∧ (-1 : Int) ∉ k.codes

instance (k : ThemeConstants) : Decidable k.WellFormed := by
  unfold ThemeConstants.WellFormed
  infer_instance

/-- Modelled from the spec: a header instance for concrete evaluation.  The
codes are numbered from 0 in the order the spec lists them, which agrees with
its scenario (2 is GREEN, 5 is ORANGE); the spec fixes no channel values, the
ones here are illustrative. -/
def sampleConstants : ThemeConstants where
  ACCENTCOLOR_BLUE := 0
  ACCENTCOLOR_RED := 1
  ACCENTCOLOR_GREEN := 2
  ACCENTCOLOR_PURPLE := 3
  ACCENTCOLOR_PINK := 4
  ACCENTCOLOR_ORANGE := 5
  ACCENTCOLOR_GREY := 6
  m_blueColor := ⟨51, 133, 255⟩
  m_redColor := ⟨255, 92, 109⟩
  m_greenColor := ⟨53, 191, 86⟩
  m_purpleColor := ⟨130, 102, 255⟩
  m_pinkColor := ⟨202, 100, 172⟩
  m_orangeColor := ⟨254, 160, 66⟩
  m_greyColor := ⟨79, 89, 107⟩

/-- The fixed palette table in the words of the spec: the seven named codes
paired with their colours. -/
def ThemeConstants.table (k : ThemeConstants) : List (Int × QColor) :=
  [(k.ACCENTCOLOR_BLUE, k.m_blueColor), (k.ACCENTCOLOR_RED, k.m_redColor),
   (k.ACCENTCOLOR_GREEN, k.m_greenColor), (k.ACCENTCOLOR_PURPLE, k.m_purpleColor),
   (k.ACCENTCOLOR_PINK, k.m_pinkColor), (k.ACCENTCOLOR_ORANGE, k.m_orangeColor),
   (k.ACCENTCOLOR_GREY, k.m_greyColor)]

/-- The palette lookup in the words of the spec (AccentPalette): a named code
maps to its colour, every other integer to the default BLUE.  This is the
specification side; `setAccentColor` below carries the `switch` of the source. -/
def palette (k : ThemeConstants) (code : Int) : QColor :=
  (k.table.lookup code).getD k.m_blueColor

/-! ## Signals and the D-Bus side -/

/-- The Qt signals of `ThemeManager` emitted in `thememanager.cpp`. -/
inductive Signal where
  | darkModeChanged
  | accentColorChanged
  | fontSizeChanged
  | fontFamilyChanged
deriving DecidableEq, Repr

/-- The slots of `ThemeManager` that `initDBusSignals` connects. -/
inductive Slot where
  | onDBusDarkModeChanged
  | onDBusAccentColorChanged
  | onDBusFontSizeChanged
  | onDBusFontFamilyChanged
deriving DecidableEq, Repr

/-- One `QDBusConnection::sessionBus().connect(Service, ObjectPath, Interface,
name, this, SLOT(slot))` registration: the D-Bus signal name and the slot. -/
structure Subscription where
  name : String
  slot : Slot
deriving DecidableEq, Repr

/-- A `QDBusInterface` on `com.pisces.Settings` `/Theme` as one operation
sees it: whether it is valid, and the property values the provider reports. -/
structure QDBusInterface where
  valid : Bool
  isDarkMode : Bool
  accentColor : Int
  systemFontPointSize : QReal
  systemFont : String
deriving DecidableEq, Repr

/-- The call `iface.isValid()`. -/
def QDBusInterface.isValid (iface : QDBusInterface) : Bool := iface.valid

/-- The read `iface.property("isDarkMode").toBool()`: an invalid interface
yields an invalid `QVariant`, whose `toBool()` is `false`. -/
def QDBusInterface.propertyIsDarkMode (iface : QDBusInterface) : Bool :=
  if iface.valid then iface.isDarkMode else false

/-- The read `iface.property("accentColor").toInt()` (`0` when invalid). -/
def QDBusInterface.propertyAccentColor (iface : QDBusInterface) : Int :=
  if iface.valid then iface.accentColor else 0

/-- The read `iface.property("systemFontPointSize").toReal()` (`0.0` when
invalid). -/
def QDBusInterface.propertySystemFontPointSize (iface : QDBusInterface) : QReal :=
  if iface.valid then iface.systemFontPointSize else QReal.zero

/-- The read `iface.property("systemFont").toString()` (the empty string when
invalid). -/
def QDBusInterface.propertySystemFont (iface : QDBusInterface) : String :=
  if iface.valid then iface.systemFont else ""

/-! ## The object state and its operations -/

/-- The data members of `ThemeManager` written in `thememanager.cpp`, together
with the session-bus subscriptions that deliver to this object. -/
structure ThemeManager where
  m_darkMode : Bool
  m_accentColorIndex : Int
  m_accentColor : QColor
  m_fontSize : QReal
  m_fontFamily : String
  subscriptions : List Subscription
deriving DecidableEq, Repr

/-- The member initialisers of `ThemeManager::ThemeManager` (lines 35-39). -/
def ThemeManager.memberInit (k : ThemeConstants) : ThemeManager where
  m_darkMode := false
  m_accentColorIndex := -1
  m_accentColor := k.m_blueColor
  m_fontSize := QReal.nine
  m_fontFamily := "Noto Sans"
  subscriptions := []

/-- `ThemeManager::setAccentColor` (lines 127-162).  The `switch` is the chain
of its `case` labels in source order; C++ requires the labels to be pairwise
distinct, so the order of the tests does not matter there. -/
def setAccentColor (k : ThemeConstants) (s : ThemeManager) (accentColorID : Int) :
    ThemeManager × List Signal :=
  if s.m_accentColorIndex = accentColorID then
    (s, [])
  else
    let s1 := { s with m_accentColorIndex := accentColorID }
    let s2 :=
      if accentColorID = k.ACCENTCOLOR_BLUE then { s1 with m_accentColor := k.m_blueColor }
      else if accentColorID = k.ACCENTCOLOR_RED then { s1 with m_accentColor := k.m_redColor }
      else if accentColorID = k.ACCENTCOLOR_GREEN then { s1 with m_accentColor := k.m_greenColor }
      else if accentColorID = k.ACCENTCOLOR_PURPLE then { s1 with m_accentColor := k.m_purpleColor }
      else if accentColorID = k.ACCENTCOLOR_PINK then { s1 with m_accentColor := k.m_pinkColor }
      else if accentColorID = k.ACCENTCOLOR_ORANGE then { s1 with m_accentColor := k.m_orangeColor }
      else if accentColorID = k.ACCENTCOLOR_GREY then { s1 with m_accentColor := k.m_greyColor }
      else { s1 with m_accentColor := k.m_blueColor }
    (s2, [Signal.accentColorChanged])

/-- `ThemeManager::initData` (lines 57-74). -/
def initData (k : ThemeConstants) (s : ThemeManager) (iface : QDBusInterface) :
    ThemeManager × List Signal :=
  if iface.isValid then
    let s1 := { s with m_darkMode := iface.propertyIsDarkMode }
    let accentColorID := iface.propertyAccentColor
    let r := setAccentColor k s1 accentColorID
    let s2 := { r.1 with m_fontSize := iface.propertySystemFontPointSize }
    let s3 := { s2 with m_fontFamily := iface.propertySystemFont }
    (s3, r.2 ++ [Signal.fontSizeChanged] ++ [Signal.fontFamilyChanged] ++ [Signal.darkModeChanged])
  else
    (s, [])

/-- One `QDBusConnection::connect`: the subscription is registered; registering
one that is already there changes nothing. -/
def connect (subs : List Subscription) (c : Subscription) : List Subscription :=
  if c ∈ subs then subs else subs ++ [c]

/-- `ThemeManager::initDBusSignals` (lines 76-90); it emits no signal. -/
def initDBusSignals (s : ThemeManager) (iface : QDBusInterface) : ThemeManager :=
  if iface.isValid then
    let c1 := connect s.subscriptions ⟨"darkModeChanged", Slot.onDBusDarkModeChanged⟩
    let c2 := connect c1 ⟨"accentColorChanged", Slot.onDBusAccentColorChanged⟩
    let c3 := connect c2 ⟨"systemFontPointSizeChanged", Slot.onDBusFontSizeChanged⟩
    let c4 := connect c3 ⟨"systemFontChanged", Slot.onDBusFontFamilyChanged⟩
    { s with subscriptions := c4 }
  else
    s

/-- `ThemeManager::onDBusDarkModeChanged` (lines 92-98). -/
def onDBusDarkModeChanged (s : ThemeManager) (darkMode : Bool) : ThemeManager × List Signal :=
  if s.m_darkMode ≠ darkMode then
    ({ s with m_darkMode := darkMode }, [Signal.darkModeChanged])
  else
    (s, [])

/-- `ThemeManager::onDBusAccentColorChanged` (lines 100-103). -/
def onDBusAccentColorChanged (k : ThemeConstants) (s : ThemeManager) (accentColorID : Int) :
    ThemeManager × List Signal :=
  setAccentColor k s accentColorID

/-- `ThemeManager::onDBusFontSizeChanged` (lines 105-114): the property is read
without a validity check. -/
def onDBusFontSizeChanged (s : ThemeManager) (iface : QDBusInterface) :
    ThemeManager × List Signal :=
  let size := iface.propertySystemFontPointSize
  if QReal.ne size s.m_fontSize then
    ({ s with m_fontSize := size }, [Signal.fontSizeChanged])
  else
    (s, [])

/-- `ThemeManager::onDBusFontFamilyChanged` (lines 116-125): the property is
read without a validity check. -/
def onDBusFontFamilyChanged (s : ThemeManager) (iface : QDBusInterface) :
    ThemeManager × List Signal :=
  let family := iface.propertySystemFont
  if family ≠ s.m_fontFamily then
    ({ s with m_fontFamily := family }, [Signal.fontFamilyChanged])
  else
    (s, [])

/-- The body of the `serviceRegistered` handler installed by the constructor
(lines 43-46): `initData()` then `initDBusSignals()`, each on its own
interface object. -/
def serviceRegistered (k : ThemeConstants) (s : ThemeManager) (i1 i2 : QDBusInterface) :
    ThemeManager × List Signal :=
  let r := initData k s i1
  (initDBusSignals r.1 i2, r.2)

/-- `ThemeManager::ThemeManager` (lines 33-50): the member initialisers, then
`initDBusSignals()` and `initData()`, each on its own interface object.  The
service watcher only arranges for `serviceRegistered` to run later. -/
def ThemeManager.construct (k : ThemeConstants) (i1 i2 : QDBusInterface) :
    ThemeManager × List Signal :=
  initData k (initDBusSignals (ThemeManager.memberInit k) i1) i2

/-- A call on a constructed `ThemeManager`, with what the D-Bus side presents
to it. -/
inductive Call where
  | initData (iface : QDBusInterface)
  | initDBusSignals (iface : QDBusInterface)
  | serviceRegistered (i1 i2 : QDBusInterface)
  | onDBusDarkModeChanged (darkMode : Bool)
  | onDBusAccentColorChanged (accentColorID : Int)
  | onDBusFontSizeChanged (iface : QDBusInterface)
  | onDBusFontFamilyChanged (iface : QDBusInterface)
  | setAccentColor (accentColorID : Int)
deriving DecidableEq, Repr

/-- The effect of one call. -/
def step (k : ThemeConstants) (s : ThemeManager) : Call → ThemeManager × List Signal
  | Call.initData iface => initData k s iface
  | Call.initDBusSignals iface => (initDBusSignals s iface, [])
  | Call.serviceRegistered i1 i2 => serviceRegistered k s i1 i2
  | Call.onDBusDarkModeChanged darkMode => onDBusDarkModeChanged s darkMode
  | Call.onDBusAccentColorChanged accentColorID => onDBusAccentColorChanged k s accentColorID
  | Call.onDBusFontSizeChanged iface => onDBusFontSizeChanged s iface
  | Call.onDBusFontFamilyChanged iface => onDBusFontFamilyChanged s iface
  | Call.setAccentColor accentColorID => setAccentColor k s accentColorID

/-- A finite sequence of calls, run in order; the signals are concatenated. -/
def run (k : ThemeConstants) (s : ThemeManager) : List Call → ThemeManager × List Signal
  | [] => (s, [])
  | c :: cs =>
    let r := step k s c
    let r2 := run k r.1 cs
    (r2.1, r.2 ++ r2.2)

/-- The palette invariant of the spec: the cached colour is the palette entry
of the cached index. -/
def PaletteInv (k : ThemeConstants) (s : ThemeManager) : Prop :=
  s.m_accentColor = palette k s.m_accentColorIndex

instance (k : ThemeConstants) (s : ThemeManager) : Decidable (PaletteInv k s) := by
  unfold PaletteInv
  infer_instance

/-- A reachable provider reporting dark mode on, accent code 2, font size
11.5 and font "DejaVu Sans" (the scenario of the spec). -/
def sampleProvider : QDBusInterface where
  valid := true
  isDarkMode := true
  accentColor := 2
  systemFontPointSize := QReal.elevenAndHalf
  systemFont := "DejaVu Sans"

/-- An unreachable provider: the interface is not valid. -/
def unreachableProvider : QDBusInterface where
  valid := false
  isDarkMode := false
  accentColor := 0
  systemFontPointSize := QReal.zero
  systemFont := ""

/-! ## Shared lemmas -/

/-- One step of an association-list lookup on integer keys. -/
theorem lookup_cons_ite (a key : Int) (b : QColor) (es : List (Int × QColor)) :
    List.lookup a ((key, b) :: es) = if a = key then some b else List.lookup a es := by
  by_cases h : a = key
  · simp [List.lookup, h]
  · have hb : (a == key) = false := by simpa using h
    simp [List.lookup, hb, h]

/-- The table lookup of the spec unfolds to the case chain of the `switch`. -/
theorem palette_eq_chain (k : ThemeConstants) (c : Int) :
    palette k c =
      if c = k.ACCENTCOLOR_BLUE then k.m_blueColor
      else if c = k.ACCENTCOLOR_RED then k.m_redColor
      else if c = k.ACCENTCOLOR_GREEN then k.m_greenColor
      else if c = k.ACCENTCOLOR_PURPLE then k.m_purpleColor
      else if c = k.ACCENTCOLOR_PINK then k.m_pinkColor
      else if c = k.ACCENTCOLOR_ORANGE then k.m_orangeColor
      else if c = k.ACCENTCOLOR_GREY then k.m_greyColor
      else k.m_blueColor := by
  unfold palette ThemeConstants.table
  simp only [lookup_cons_ite, List.lookup_nil]
  split_ifs <;> rfl

/-- The guard of `setAccentColor`: an unchanged index returns at once. -/
theorem setAccentColor_same (k : ThemeConstants) (s : ThemeManager) (c : Int)
    (h : s.m_accentColorIndex = c) : setAccentColor k s c = (s, []) := by
  simp [setAccentColor, h]

/-- Past the guard, `setAccentColor` stores the code, the palette colour of the
code, and emits `accentColorChanged` once. -/
theorem setAccentColor_changed (k : ThemeConstants) (s : ThemeManager) (c : Int)
    (h : s.m_accentColorIndex ≠ c) :
    setAccentColor k s c =
      ({ s with m_accentColorIndex := c, m_accentColor := palette k c },
       [Signal.accentColorChanged]) := by
  rw [palette_eq_chain]
  unfold setAccentColor
  rw [if_neg h]
  split_ifs <;> rfl

/-- A code that is none of the seven enumerators has the palette colour BLUE. -/
theorem palette_unknown (k : ThemeConstants) (c : Int) (h : c ∉ k.codes) :
    palette k c = k.m_blueColor := by
  rw [palette_eq_chain]
  simp only [ThemeConstants.codes, List.mem_cons, List.mem_singleton, List.not_mem_nil,
    not_or, or_false] at h
  obtain ⟨h1, h2, h3, h4, h5, h6, h7⟩ := h
  simp [h1, h2, h3, h4, h5, h6, h7]

/-- With pairwise distinct enumerators every named code has its own colour. -/
theorem palette_named (k : ThemeConstants) (h : k.codes.Nodup) :
    palette k k.ACCENTCOLOR_BLUE = k.m_blueColor ∧
    palette k k.ACCENTCOLOR_RED = k.m_redColor ∧
    palette k k.ACCENTCOLOR_GREEN = k.m_greenColor ∧
    palette k k.ACCENTCOLOR_PURPLE = k.m_purpleColor ∧
    palette k k.ACCENTCOLOR_PINK = k.m_pinkColor ∧
    palette k k.ACCENTCOLOR_ORANGE = k.m_orangeColor ∧
    palette k k.ACCENTCOLOR_GREY = k.m_greyColor := by
  simp only [ThemeConstants.codes, List.nodup_cons, List.mem_cons, List.mem_singleton,
    List.not_mem_nil, not_or, or_false, List.nodup_nil, and_true, not_false_eq_true] at h
  simp only [palette_eq_chain]
  obtain ⟨⟨a1, a2, a3, a4, a5, a6⟩, ⟨b2, b3, b4, b5, b6⟩, ⟨c3, c4, c5, c6⟩, ⟨d4, d5, d6⟩,
    ⟨e5, e6⟩, f6⟩ := h
  refine ⟨by simp, ?_, ?_, ?_, ?_, ?_, ?_⟩ <;>
    simp [Ne.symm a1, Ne.symm a2, Ne.symm a3, Ne.symm a4, Ne.symm a5, Ne.symm a6, Ne.symm b2,
      Ne.symm b3, Ne.symm b4, Ne.symm b5, Ne.symm b6, Ne.symm c3, Ne.symm c4, Ne.symm c5,
      Ne.symm c6, Ne.symm d4, Ne.symm d5, Ne.symm d6, Ne.symm e5, Ne.symm e6, Ne.symm f6]

/-- In every case `setAccentColor` leaves the index at the requested code. -/
theorem setAccentColor_index (k : ThemeConstants) (s : ThemeManager) (c : Int) :
    (setAccentColor k s c).1.m_accentColorIndex = c := by
  by_cases h : s.m_accentColorIndex = c
  · rw [setAccentColor_same k s c h]; exact h
  · rw [setAccentColor_changed k s c h]

/-- The palette invariant is kept by `setAccentColor`. -/
theorem setAccentColor_inv (k : ThemeConstants) (s : ThemeManager) (c : Int)
    (h : PaletteInv k s) : PaletteInv k (setAccentColor k s c).1 := by
  by_cases hc : s.m_accentColorIndex = c
  · rw [setAccentColor_same k s c hc]; exact h
  · rw [setAccentColor_changed k s c hc]; rfl

/-- The palette invariant is kept by `initData`. -/
theorem initData_inv (k : ThemeConstants) (s : ThemeManager) (iface : QDBusInterface)
    (h : PaletteInv k s) : PaletteInv k (initData k s iface).1 := by
  unfold initData
  split_ifs
  · have h1 : PaletteInv k { s with m_darkMode := iface.propertyIsDarkMode } := h
    exact setAccentColor_inv k _ iface.propertyAccentColor h1
  · exact h

/-- The palette invariant is kept by `initDBusSignals`. -/
theorem initDBusSignals_inv (k : ThemeConstants) (s : ThemeManager) (iface : QDBusInterface)
    (h : PaletteInv k s) : PaletteInv k (initDBusSignals s iface) := by
  unfold initDBusSignals
  split_ifs
  · exact h
  · exact h

/-- The palette invariant is kept by every call. -/
theorem step_inv (k : ThemeConstants) (s : ThemeManager) (c : Call)
    (h : PaletteInv k s) : PaletteInv k (step k s c).1 := by
  cases c with
  | initData iface => exact initData_inv k s iface h
  | initDBusSignals iface => exact initDBusSignals_inv k s iface h
  | serviceRegistered i1 i2 =>
    exact initDBusSignals_inv k _ i2 (initData_inv k s i1 h)
  | onDBusDarkModeChanged v =>
    simp only [step, onDBusDarkModeChanged]
    split_ifs
    · exact h
    · exact h
  | onDBusAccentColorChanged c => exact setAccentColor_inv k s c h
  | onDBusFontSizeChanged iface =>
    simp only [step, onDBusFontSizeChanged]
    split_ifs
    · exact h
    · exact h
  | onDBusFontFamilyChanged iface =>
    simp only [step, onDBusFontFamilyChanged]
    split_ifs
    · exact h
    · exact h
  | setAccentColor c => exact setAccentColor_inv k s c h

/-- The palette invariant is kept by every finite sequence of calls. -/
theorem run_inv (k : ThemeConstants) (cs : List Call) :
    ∀ s : ThemeManager, PaletteInv k s → PaletteInv k (run k s cs).1 := by
  induction cs with
  | nil => intro s h; exact h
  | cons c cs ih => intro s h; exact ih _ (step_inv k s c h)

/-- The member initialisers satisfy the palette invariant when `-1` is no
enumerator. -/
theorem memberInit_inv (k : ThemeConstants) (h : (-1 : Int) ∉ k.codes) :
    PaletteInv k (ThemeManager.memberInit k) := by
  unfold PaletteInv
  rw [show (ThemeManager.memberInit k).m_accentColorIndex = -1 from rfl, palette_unknown k _ h]
  rfl

/-- With a valid interface `initData` is the straight-line body of its `if`. -/
theorem initData_valid (k : ThemeConstants) (s : ThemeManager) (iface : QDBusInterface)
    (hv : iface.isValid = true) :
    initData k s iface =
      ({ (setAccentColor k { s with m_darkMode := iface.isDarkMode } iface.accentColor).1 with
          m_fontSize := iface.systemFontPointSize, m_fontFamily := iface.systemFont },
       (setAccentColor k { s with m_darkMode := iface.isDarkMode } iface.accentColor).2 ++
         [Signal.fontSizeChanged, Signal.fontFamilyChanged, Signal.darkModeChanged]) := by
  have hv : iface.valid = true := hv
  simp [initData, QDBusInterface.isValid, QDBusInterface.propertyIsDarkMode,
    QDBusInterface.propertyAccentColor, QDBusInterface.propertySystemFontPointSize,
    QDBusInterface.propertySystemFont, hv]

/-- With an invalid interface `initData` does nothing. -/
theorem initData_invalid (k : ThemeConstants) (s : ThemeManager) (iface : QDBusInterface)
    (hv : iface.isValid = false) : initData k s iface = (s, []) := by
  have hv : iface.valid = false := hv
  simp [initData, QDBusInterface.isValid, hv]

/-- With an invalid interface `initDBusSignals` does nothing. -/
theorem initDBusSignals_invalid (s : ThemeManager) (iface : QDBusInterface)
    (hv : iface.isValid = false) : initDBusSignals s iface = s := by
  have hv : iface.valid = false := hv
  simp [initDBusSignals, QDBusInterface.isValid, hv]

/-- A double that is not NaN does not differ from itself under `!=`. -/
theorem QReal.ne_self (x : QReal) (h : x.isNaN = false) : QReal.ne x x = false := by
  simp [QReal.ne, h]

/-- The size slot when the read value does not differ from the cached one. -/
theorem onDBusFontSizeChanged_same (s : ThemeManager) (iface : QDBusInterface)
    (h : QReal.ne iface.propertySystemFontPointSize s.m_fontSize = false) :
    onDBusFontSizeChanged s iface = (s, []) := by
  simp [onDBusFontSizeChanged, h]

/-- The size slot when the read value differs from the cached one. -/
theorem onDBusFontSizeChanged_changed (s : ThemeManager) (iface : QDBusInterface)
    (h : QReal.ne iface.propertySystemFontPointSize s.m_fontSize = true) :
    onDBusFontSizeChanged s iface
      = ({ s with m_fontSize := iface.propertySystemFontPointSize }, [Signal.fontSizeChanged]) := by
  simp [onDBusFontSizeChanged, h]

/-- The family slot when the read value equals the cached one. -/
theorem onDBusFontFamilyChanged_same (s : ThemeManager) (iface : QDBusInterface)
    (h : iface.propertySystemFont = s.m_fontFamily) :
    onDBusFontFamilyChanged s iface = (s, []) := by
  simp [onDBusFontFamilyChanged, h]

/-- The family slot when the read value differs from the cached one. -/
theorem onDBusFontFamilyChanged_changed (s : ThemeManager) (iface : QDBusInterface)
    (h : iface.propertySystemFont ≠ s.m_fontFamily) :
    onDBusFontFamilyChanged s iface
      = ({ s with m_fontFamily := iface.propertySystemFont }, [Signal.fontFamilyChanged]) := by
  simp [onDBusFontFamilyChanged, h]

/-- The dark-mode slot when the carried value equals the cached one. -/
theorem onDBusDarkModeChanged_same (s : ThemeManager) (v : Bool) (h : v = s.m_darkMode) :
    onDBusDarkModeChanged s v = (s, []) := by
  simp [onDBusDarkModeChanged, h]

/-- The dark-mode slot when the carried value differs from the cached one. -/
theorem onDBusDarkModeChanged_changed (s : ThemeManager) (v : Bool) (h : v ≠ s.m_darkMode) :
    onDBusDarkModeChanged s v = ({ s with m_darkMode := v }, [Signal.darkModeChanged]) := by
  simp [onDBusDarkModeChanged, Ne.symm h]

/-! ## The claims -/

/-- C1 (palette invariant): for a header whose enumerators are pairwise distinct
and do not contain the sentinel `-1`, the state of the member initialisers, the
state the constructor returns (whatever the provider looked like to it), and
every state reached from either by any finite sequence of `initData`,
`initDBusSignals`, `serviceRegistered`, the four `onDBus*Changed` slots and
`setAccentColor` has `m_accentColor = palette(m_accentColorIndex)`; the palette
sends each named code to its own colour and every other integer, `-1`
included, to BLUE. -/
theorem C1_palette_invariant (k : ThemeConstants) (hk : k.WellFormed)
    (i1 i2 : QDBusInterface) (cs : List Call) :
    (ThemeManager.memberInit k).m_accentColorIndex = -1 ∧
    (ThemeManager.memberInit k).m_accentColor = k.m_blueColor ∧
    (ThemeManager.construct k i1 i2).1.m_accentColor
      = palette k (ThemeManager.construct k i1 i2).1.m_accentColorIndex ∧
    (run k (ThemeManager.memberInit k) cs).1.m_accentColor
      = palette k (run k (ThemeManager.memberInit k) cs).1.m_accentColorIndex ∧
    (run k (ThemeManager.construct k i1 i2).1 cs).1.m_accentColor
      = palette k (run k (ThemeManager.construct k i1 i2).1 cs).1.m_accentColorIndex ∧
    palette k (-1) = k.m_blueColor ∧
    (∀ c : Int, c ∉ k.codes → palette k c = k.m_blueColor) ∧
    palette k k.ACCENTCOLOR_BLUE = k.m_blueColor ∧
    palette k k.ACCENTCOLOR_RED = k.m_redColor ∧
    palette k k.ACCENTCOLOR_GREEN = k.m_greenColor ∧
    palette k k.ACCENTCOLOR_PURPLE = k.m_purpleColor ∧
    palette k k.ACCENTCOLOR_PINK = k.m_pinkColor ∧
    palette k k.ACCENTCOLOR_ORANGE = k.m_orangeColor ∧
    palette k k.ACCENTCOLOR_GREY = k.m_greyColor := by
  have h0 : PaletteInv k (ThemeManager.memberInit k) := memberInit_inv k hk.2
  have hc : PaletteInv k (ThemeManager.construct k i1 i2).1 :=
    initData_inv k _ i2 (initDBusSignals_inv k _ i1 h0)
  exact ⟨rfl, rfl, hc, run_inv k cs _ h0, run_inv k cs _ hc, palette_unknown k _ hk.2,
    fun c h => palette_unknown k c h, palette_named k hk.1⟩

/-- C1, evaluated: with the sample header, construction against an unreachable
provider followed by a registration of the provider, an accent event for the
unknown code 9 and an accent event for code 5 ends with index 5 and the
colour of ORANGE. -/
theorem C1_palette_invariant_witness :
    sampleConstants.WellFormed ∧
    (run sampleConstants (ThemeManager.construct sampleConstants unreachableProvider
        unreachableProvider).1
      [Call.serviceRegistered sampleProvider sampleProvider, Call.onDBusAccentColorChanged 9,
       Call.setAccentColor 5]).1.m_accentColor
    = palette sampleConstants
        (run sampleConstants (ThemeManager.construct sampleConstants unreachableProvider
            unreachableProvider).1
          [Call.serviceRegistered sampleProvider sampleProvider, Call.onDBusAccentColorChanged 9,
           Call.setAccentColor 5]).1.m_accentColorIndex ∧
    (run sampleConstants (ThemeManager.construct sampleConstants unreachableProvider
        unreachableProvider).1
      [Call.serviceRegistered sampleProvider sampleProvider, Call.onDBusAccentColorChanged 9,
       Call.setAccentColor 5]).1.m_accentColor = sampleConstants.m_orangeColor :=
  ⟨by decide,
   (C1_palette_invariant sampleConstants (by decide) unreachableProvider unreachableProvider
      [Call.serviceRegistered sampleProvider sampleProvider, Call.onDBusAccentColorChanged 9,
       Call.setAccentColor 5]).2.2.2.2.1,
   by decide⟩

/-- C2: for every state and every code different from the cached
`m_accentColorIndex`, `setAccentColor(code)` returns (the function is total)
with `m_accentColorIndex = code` and `m_accentColor = palette(code)`, every
other member untouched, and its signal list is exactly one
`accentColorChanged`, whatever the previously cached colour was; with pairwise
distinct enumerators each named code has its own colour, and a code outside
the seven gives BLUE. -/
theorem C2_setAccentColor_changed (k : ThemeConstants) (hk : k.codes.Nodup) (s : ThemeManager)
    (code : Int) (h : code ≠ s.m_accentColorIndex) :
    setAccentColor k s code
      = ({ s with m_accentColorIndex := code, m_accentColor := palette k code },
         [Signal.accentColorChanged]) ∧
    (setAccentColor k s code).1.m_accentColorIndex = code ∧
    (setAccentColor k s code).1.m_accentColor = palette k code ∧
    (setAccentColor k s code).2.count Signal.accentColorChanged = 1 ∧
    (code ∉ k.codes → (setAccentColor k s code).1.m_accentColor = k.m_blueColor) ∧
    palette k k.ACCENTCOLOR_BLUE = k.m_blueColor ∧
    palette k k.ACCENTCOLOR_RED = k.m_redColor ∧
    palette k k.ACCENTCOLOR_GREEN = k.m_greenColor ∧
    palette k k.ACCENTCOLOR_PURPLE = k.m_purpleColor ∧
    palette k k.ACCENTCOLOR_PINK = k.m_pinkColor ∧
    palette k k.ACCENTCOLOR_ORANGE = k.m_orangeColor ∧
    palette k k.ACCENTCOLOR_GREY = k.m_greyColor := by
  have e := setAccentColor_changed k s code (Ne.symm h)
  refine ⟨e, ?_, ?_, ?_, ?_, palette_named k hk⟩
  · rw [e]
  · rw [e]
  · rw [e]; rfl
  · intro hc; rw [e]; exact palette_unknown k code hc

/-- C2, evaluated: from a state caching index 0 with the colour of BLUE, the
unknown code 7 (whose palette colour is BLUE again) is stored and
`accentColorChanged` is emitted once although the colour did not change. -/
theorem C2_setAccentColor_changed_witness :
    sampleConstants.codes.Nodup ∧
    (7 : Int) ≠ (setAccentColor sampleConstants (ThemeManager.memberInit sampleConstants) 0).1.m_accentColorIndex ∧
    (setAccentColor sampleConstants (ThemeManager.memberInit sampleConstants) 0).1.m_accentColor
      = sampleConstants.m_blueColor ∧
    (setAccentColor sampleConstants
        (setAccentColor sampleConstants (ThemeManager.memberInit sampleConstants) 0).1 7).1.m_accentColorIndex
      = 7 ∧
    (setAccentColor sampleConstants
        (setAccentColor sampleConstants (ThemeManager.memberInit sampleConstants) 0).1 7).2.count
        Signal.accentColorChanged = 1 ∧
    (setAccentColor sampleConstants
        (setAccentColor sampleConstants (ThemeManager.memberInit sampleConstants) 0).1 7).1.m_accentColor
      = sampleConstants.m_blueColor :=
  ⟨by decide, by decide, by decide,
   (C2_setAccentColor_changed sampleConstants (by decide)
      (setAccentColor sampleConstants (ThemeManager.memberInit sampleConstants) 0).1 7
      (by decide)).2.1,
   (C2_setAccentColor_changed sampleConstants (by decide)
      (setAccentColor sampleConstants (ThemeManager.memberInit sampleConstants) 0).1 7
      (by decide)).2.2.2.1,
   (C2_setAccentColor_changed sampleConstants (by decide)
      (setAccentColor sampleConstants (ThemeManager.memberInit sampleConstants) 0).1 7
      (by decide)).2.2.2.2.1 (by decide)⟩

/-- C3 (P1, idempotent no-op): for every state and code, a second
`setAccentColor(code)` right after the first emits nothing and returns the
state of the first call unchanged; the first call emits `accentColorChanged`
once when the code differs from the cached index and nothing otherwise, so the
two calls together emit it at most once; from the member initialisers the
first call emits exactly when the code is not the sentinel `-1`; and a call
with the cached index itself returns the state unchanged with no signal. -/
theorem C3_setAccentColor_idempotent (k : ThemeConstants) (s : ThemeManager) (code : Int) :
    setAccentColor k (setAccentColor k s code).1 code = ((setAccentColor k s code).1, []) ∧
    (setAccentColor k s code).2
      = (if code = s.m_accentColorIndex then [] else [Signal.accentColorChanged]) ∧
    ((setAccentColor k s code).2 ++ (setAccentColor k (setAccentColor k s code).1 code).2).count
      Signal.accentColorChanged ≤ 1 ∧
    (setAccentColor k (ThemeManager.memberInit k) code).2
      = (if code = -1 then [] else [Signal.accentColorChanged]) ∧
    setAccentColor k s s.m_accentColorIndex = (s, []) := by
  have h2 : setAccentColor k (setAccentColor k s code).1 code = ((setAccentColor k s code).1, []) :=
    setAccentColor_same k _ code (setAccentColor_index k s code)
  have h1 : ∀ t : ThemeManager, (setAccentColor k t code).2
      = (if code = t.m_accentColorIndex then [] else [Signal.accentColorChanged]) := by
    intro t
    by_cases hc : t.m_accentColorIndex = code
    · rw [setAccentColor_same k t code hc, if_pos hc.symm]
    · rw [setAccentColor_changed k t code hc, if_neg (Ne.symm hc)]
  refine ⟨h2, h1 s, ?_, h1 (ThemeManager.memberInit k), setAccentColor_same k s _ rfl⟩
  rw [h2, h1 s]
  split_ifs <;> simp

/-- C4 (P4, cache half): for a header in which `-1` is no enumerator, every
prior state reached from the constructor by any finite sequence of calls, and
every valid interface, `initData` leaves exactly the reported values in the
cache: `m_darkMode`, `m_accentColorIndex`, `m_accentColor = palette(code)`,
`m_fontSize` and `m_fontFamily`, whatever was cached before. -/
theorem C4_initData_cache (k : ThemeConstants) (hk : (-1 : Int) ∉ k.codes)
    (i1 i2 : QDBusInterface) (cs : List Call) (iface : QDBusInterface)
    (hv : iface.isValid = true) :
    (initData k (run k (ThemeManager.construct k i1 i2).1 cs).1 iface).1.m_darkMode
      = iface.isDarkMode ∧
    (initData k (run k (ThemeManager.construct k i1 i2).1 cs).1 iface).1.m_accentColorIndex
      = iface.accentColor ∧
    (initData k (run k (ThemeManager.construct k i1 i2).1 cs).1 iface).1.m_accentColor
      = palette k iface.accentColor ∧
    (initData k (run k (ThemeManager.construct k i1 i2).1 cs).1 iface).1.m_fontSize
      = iface.systemFontPointSize ∧
    (initData k (run k (ThemeManager.construct k i1 i2).1 cs).1 iface).1.m_fontFamily
      = iface.systemFont := by
  have h0 : PaletteInv k (ThemeManager.memberInit k) := memberInit_inv k hk
  have hc : PaletteInv k (ThemeManager.construct k i1 i2).1 :=
    initData_inv k _ i2 (initDBusSignals_inv k _ i1 h0)
  have hs : PaletteInv k (run k (ThemeManager.construct k i1 i2).1 cs).1 := run_inv k cs _ hc
  generalize (run k (ThemeManager.construct k i1 i2).1 cs).1 = s at hs
  have hi : PaletteInv k (initData k s iface).1 := initData_inv k s iface hs
  have hidx : (initData k s iface).1.m_accentColorIndex = iface.accentColor := by
    rw [initData_valid k s iface hv]
    exact setAccentColor_index k _ _
  refine ⟨?_, hidx, ?_, ?_, ?_⟩
  · rw [initData_valid k s iface hv]
    show (setAccentColor k { s with m_darkMode := iface.isDarkMode } iface.accentColor).1.m_darkMode
      = iface.isDarkMode
    by_cases he : s.m_accentColorIndex = iface.accentColor
    · rw [setAccentColor_same k { s with m_darkMode := iface.isDarkMode } _ he]
    · rw [setAccentColor_changed k { s with m_darkMode := iface.isDarkMode } _ he]
  · have := hi
    unfold PaletteInv at this
    rw [this, hidx]
  · rw [initData_valid k s iface hv]
  · rw [initData_valid k s iface hv]

/-- C4, evaluated on the scenario of the spec: from the defaults (constructed
with the provider unreachable), a provider reporting dark mode on, accent
code 2, size 11.5 and font "DejaVu Sans" leaves `m_darkMode = true`,
`m_accentColorIndex = 2`, the colour of GREEN, 11.5 and "DejaVu Sans". -/
theorem C4_initData_cache_witness :
    (-1 : Int) ∉ sampleConstants.codes ∧ sampleProvider.isValid = true ∧
    (run sampleConstants
      (ThemeManager.construct sampleConstants unreachableProvider unreachableProvider).1 []).1
      = ThemeManager.memberInit sampleConstants ∧
    (initData sampleConstants (ThemeManager.memberInit sampleConstants) sampleProvider).1.m_darkMode
      = true ∧
    (initData sampleConstants (ThemeManager.memberInit sampleConstants) sampleProvider).1.m_accentColorIndex
      = 2 ∧
    (initData sampleConstants (ThemeManager.memberInit sampleConstants) sampleProvider).1.m_accentColor
      = sampleConstants.m_greenColor ∧
    (initData sampleConstants (ThemeManager.memberInit sampleConstants) sampleProvider).1.m_fontSize
      = QReal.elevenAndHalf ∧
    (initData sampleConstants (ThemeManager.memberInit sampleConstants) sampleProvider).1.m_fontFamily
      = "DejaVu Sans" :=
  ⟨by decide, rfl, by decide,
   C4_initData_cache sampleConstants (by decide) unreachableProvider unreachableProvider []
     sampleProvider rfl⟩

/-- C5, refuted as stated: after a first `initData` against the sample provider
(reachable, accent code 2) the cached index is 2, and a second `initData`
against the same reachable provider does not emit `accentColorChanged`. -/
theorem C5_counterexample :
    sampleProvider.isValid = true ∧
    (initData sampleConstants (ThemeManager.memberInit sampleConstants) sampleProvider).1.m_accentColorIndex
      = sampleProvider.accentColor ∧
    Signal.accentColorChanged ∉
      (initData sampleConstants
        (initData sampleConstants (ThemeManager.memberInit sampleConstants) sampleProvider).1
        sampleProvider).2 := by
  decide

/-- C5 as amended (P4, notification half): for every prior state and every
valid interface, `initData` emits `darkModeChanged`, `fontSizeChanged` and
`fontFamilyChanged` exactly once each, also when the reported value equals the
cached one; it emits `accentColorChanged` exactly once when the reported code
differs from the cached `m_accentColorIndex` and not at all when it equals
it. -/
theorem C5_initData_signals (k : ThemeConstants) (s : ThemeManager) (iface : QDBusInterface)
    (hv : iface.isValid = true) :
    (initData k s iface).2.count Signal.darkModeChanged = 1 ∧
    (initData k s iface).2.count Signal.fontSizeChanged = 1 ∧
    (initData k s iface).2.count Signal.fontFamilyChanged = 1 ∧
    (initData k s iface).2.count Signal.accentColorChanged
      = (if iface.accentColor = s.m_accentColorIndex then 0 else 1) := by
  rw [initData_valid k s iface hv]
  by_cases he : s.m_accentColorIndex = iface.accentColor
  · rw [setAccentColor_same k { s with m_darkMode := iface.isDarkMode } _ he, if_pos he.symm]
    simp
  · rw [setAccentColor_changed k { s with m_darkMode := iface.isDarkMode } _ he,
      if_neg (Ne.symm he)]
    simp

/-- C5 as amended, evaluated: from the defaults the sample provider yields
each of the four signals once. -/
theorem C5_initData_signals_witness :
    sampleProvider.isValid = true ∧
    (initData sampleConstants (ThemeManager.memberInit sampleConstants) sampleProvider).2.count
      Signal.darkModeChanged = 1 ∧
    (initData sampleConstants (ThemeManager.memberInit sampleConstants) sampleProvider).2.count
      Signal.fontSizeChanged = 1 ∧
    (initData sampleConstants (ThemeManager.memberInit sampleConstants) sampleProvider).2.count
      Signal.fontFamilyChanged = 1 ∧
    (initData sampleConstants (ThemeManager.memberInit sampleConstants) sampleProvider).2.count
      Signal.accentColorChanged = 1 :=
  ⟨rfl, C5_initData_signals sampleConstants (ThemeManager.memberInit sampleConstants)
    sampleProvider rfl⟩

/-- C6 (P3, dedup on scalar events): for every state, carried value and
interface.  `onDBusDarkModeChanged(v)`: when `v` equals the cached flag the
state is returned unchanged with no signal, when it differs the flag becomes
`v` and exactly one `darkModeChanged` is emitted.  `onDBusFontSizeChanged()`
and `onDBusFontFamilyChanged()` do the same with the value read back from the
interface and `fontSizeChanged` / `fontFamilyChanged`; for the size, "equal"
and "differs" are the C++ comparison of two doubles, which a value that is
not NaN satisfies with itself. -/
theorem C6_scalar_dedup (s : ThemeManager) (v : Bool) (iface : QDBusInterface) :
    (v = s.m_darkMode → onDBusDarkModeChanged s v = (s, [])) ∧
    (v ≠ s.m_darkMode →
      onDBusDarkModeChanged s v = ({ s with m_darkMode := v }, [Signal.darkModeChanged])) ∧
    (QReal.ne iface.propertySystemFontPointSize s.m_fontSize = false →
      onDBusFontSizeChanged s iface = (s, [])) ∧
    (iface.propertySystemFontPointSize = s.m_fontSize → s.m_fontSize.isNaN = false →
      onDBusFontSizeChanged s iface = (s, [])) ∧
    (QReal.ne iface.propertySystemFontPointSize s.m_fontSize = true →
      onDBusFontSizeChanged s iface
        = ({ s with m_fontSize := iface.propertySystemFontPointSize }, [Signal.fontSizeChanged])) ∧
    (iface.propertySystemFont = s.m_fontFamily → onDBusFontFamilyChanged s iface = (s, [])) ∧
    (iface.propertySystemFont ≠ s.m_fontFamily →
      onDBusFontFamilyChanged s iface
        = ({ s with m_fontFamily := iface.propertySystemFont }, [Signal.fontFamilyChanged])) := by
  refine ⟨onDBusDarkModeChanged_same s v, onDBusDarkModeChanged_changed s v,
    onDBusFontSizeChanged_same s iface, ?_, onDBusFontSizeChanged_changed s iface,
    onDBusFontFamilyChanged_same s iface, onDBusFontFamilyChanged_changed s iface⟩
  intro h hn
  apply onDBusFontSizeChanged_same
  rw [h]
  exact QReal.ne_self _ hn

/-- C6, evaluated from the defaults: dark mode `false` again changes nothing,
dark mode `true` is stored with one signal; the reported size 11.5 replaces
9.0 and the reported family "DejaVu Sans" replaces "Noto Sans", each with one
signal; read again afterwards, the same size and family change nothing. -/
theorem C6_scalar_dedup_witness :
    onDBusDarkModeChanged (ThemeManager.memberInit sampleConstants) false
      = (ThemeManager.memberInit sampleConstants, []) ∧
    onDBusDarkModeChanged (ThemeManager.memberInit sampleConstants) true
      = ({ ThemeManager.memberInit sampleConstants with m_darkMode := true },
         [Signal.darkModeChanged]) ∧
    onDBusFontSizeChanged (ThemeManager.memberInit sampleConstants) sampleProvider
      = ({ ThemeManager.memberInit sampleConstants with m_fontSize := QReal.elevenAndHalf },
         [Signal.fontSizeChanged]) ∧
    onDBusFontFamilyChanged (ThemeManager.memberInit sampleConstants) sampleProvider
      = ({ ThemeManager.memberInit sampleConstants with m_fontFamily := "DejaVu Sans" },
         [Signal.fontFamilyChanged]) ∧
    onDBusFontSizeChanged
        { ThemeManager.memberInit sampleConstants with m_fontSize := QReal.elevenAndHalf }
        sampleProvider
      = ({ ThemeManager.memberInit sampleConstants with m_fontSize := QReal.elevenAndHalf }, []) ∧
    onDBusFontFamilyChanged
        { ThemeManager.memberInit sampleConstants with m_fontFamily := "DejaVu Sans" }
        sampleProvider
      = ({ ThemeManager.memberInit sampleConstants with m_fontFamily := "DejaVu Sans" }, []) :=
  ⟨(C6_scalar_dedup (ThemeManager.memberInit sampleConstants) false sampleProvider).1 rfl,
   (C6_scalar_dedup (ThemeManager.memberInit sampleConstants) true sampleProvider).2.1
     (by decide),
   (C6_scalar_dedup (ThemeManager.memberInit sampleConstants) true sampleProvider).2.2.2.2.1
     (by decide),
   (C6_scalar_dedup (ThemeManager.memberInit sampleConstants) true sampleProvider).2.2.2.2.2.2
     (by decide),
   (C6_scalar_dedup
     { ThemeManager.memberInit sampleConstants with m_fontSize := QReal.elevenAndHalf } true
     sampleProvider).2.2.2.1 rfl (by decide),
   (C6_scalar_dedup
     { ThemeManager.memberInit sampleConstants with m_fontFamily := "DejaVu Sans" } true
     sampleProvider).2.2.2.2.2.1 rfl⟩

/-- C7 (P5, disconnected safety): with an invalid interface, `initData` returns
the state it was given (all five cached members and the subscriptions) with an
empty signal list, and `initDBusSignals` returns the state it was given, so no
subscription is added; both are total functions.  A `ThemeManager` constructed
while both of the constructor's interfaces are invalid therefore holds
`m_darkMode = false`, `m_accentColorIndex = -1`, `m_accentColor` BLUE,
`m_fontSize = 9.0`, `m_fontFamily = "Noto Sans"`, no subscription, and the
constructor emitted nothing. -/
theorem C7_disconnected_safety (k : ThemeConstants) (s : ThemeManager) (iface i2 : QDBusInterface)
    (hv : iface.isValid = false) (hv2 : i2.isValid = false) :
    initData k s iface = (s, []) ∧
    initDBusSignals s iface = s ∧
    (initDBusSignals s iface).subscriptions = s.subscriptions ∧
    ThemeManager.construct k iface i2 = (ThemeManager.memberInit k, []) ∧
    (ThemeManager.construct k iface i2).1.m_darkMode = false ∧
    (ThemeManager.construct k iface i2).1.m_accentColorIndex = -1 ∧
    (ThemeManager.construct k iface i2).1.m_accentColor = k.m_blueColor ∧
    (ThemeManager.construct k iface i2).1.m_fontSize = QReal.nine ∧
    (ThemeManager.construct k iface i2).1.m_fontFamily = "Noto Sans" ∧
    (ThemeManager.construct k iface i2).1.subscriptions = [] := by
  have hc : ThemeManager.construct k iface i2 = (ThemeManager.memberInit k, []) := by
    unfold ThemeManager.construct
    rw [initDBusSignals_invalid _ iface hv, initData_invalid k _ i2 hv2]
  refine ⟨initData_invalid k s iface hv, initDBusSignals_invalid s iface hv, ?_, hc, ?_⟩
  · rw [initDBusSignals_invalid s iface hv]
  · rw [hc]
    exact ⟨rfl, rfl, rfl, rfl, rfl, rfl⟩

/-- C7, evaluated: a populated cache (after a successful `initData`) is left as
it is by `initData` and `initDBusSignals` on the unreachable provider. -/
theorem C7_disconnected_safety_witness :
    unreachableProvider.isValid = false ∧
    initData sampleConstants
        (initData sampleConstants (ThemeManager.memberInit sampleConstants) sampleProvider).1
        unreachableProvider
      = ((initData sampleConstants (ThemeManager.memberInit sampleConstants) sampleProvider).1, []) ∧
    initDBusSignals
        (initData sampleConstants (ThemeManager.memberInit sampleConstants) sampleProvider).1
        unreachableProvider
      = (initData sampleConstants (ThemeManager.memberInit sampleConstants) sampleProvider).1 ∧
    ThemeManager.construct sampleConstants unreachableProvider unreachableProvider
      = (ThemeManager.memberInit sampleConstants, []) :=
  ⟨rfl,
   (C7_disconnected_safety sampleConstants
     (initData sampleConstants (ThemeManager.memberInit sampleConstants) sampleProvider).1
     unreachableProvider unreachableProvider rfl rfl).1,
   (C7_disconnected_safety sampleConstants
     (initData sampleConstants (ThemeManager.memberInit sampleConstants) sampleProvider).1
     unreachableProvider unreachableProvider rfl rfl).2.1,
   (C7_disconnected_safety sampleConstants
     (initData sampleConstants (ThemeManager.memberInit sampleConstants) sampleProvider).1
     unreachableProvider unreachableProvider rfl rfl).2.2.2.1⟩

/-- C8, the code at the failing input: with the cache at its defaults and the
provider unreachable, `onDBusFontSizeChanged` replaces `m_fontSize = 9.0` by
`0.0` and emits `fontSizeChanged`, and `onDBusFontFamilyChanged` replaces
`m_fontFamily = "Noto Sans"` by the empty string and emits
`fontFamilyChanged`, whereas `initData` on the same interface changes
nothing. -/
theorem C8_font_slots_unchecked :
    unreachableProvider.isValid = false ∧
    onDBusFontSizeChanged (ThemeManager.memberInit sampleConstants) unreachableProvider
      = ({ ThemeManager.memberInit sampleConstants with m_fontSize := QReal.zero },
         [Signal.fontSizeChanged]) ∧
    onDBusFontFamilyChanged (ThemeManager.memberInit sampleConstants) unreachableProvider
      = ({ ThemeManager.memberInit sampleConstants with m_fontFamily := "" },
         [Signal.fontFamilyChanged]) ∧
    initData sampleConstants (ThemeManager.memberInit sampleConstants) unreachableProvider
      = (ThemeManager.memberInit sampleConstants, []) := by
  decide

/-- C9 (frame of change events): for every state and payload, the state after
`onDBusDarkModeChanged` differs from the state before at most in `m_darkMode`,
after `onDBusFontSizeChanged` at most in `m_fontSize`, after
`onDBusFontFamilyChanged` at most in `m_fontFamily`, after
`onDBusAccentColorChanged` and `setAccentColor` at most in
`m_accentColorIndex` and `m_accentColor`; and the signal list of each is one
signal of its own kind when the new value differs from the cached one and
empty otherwise. -/
theorem C9_event_frame (k : ThemeConstants) (s : ThemeManager) (v : Bool) (c : Int)
    (iface : QDBusInterface) :
    (onDBusDarkModeChanged s v).1
      = { s with m_darkMode := (onDBusDarkModeChanged s v).1.m_darkMode } ∧
    (onDBusDarkModeChanged s v).2
      = (if v = s.m_darkMode then [] else [Signal.darkModeChanged]) ∧
    (onDBusFontSizeChanged s iface).1
      = { s with m_fontSize := (onDBusFontSizeChanged s iface).1.m_fontSize } ∧
    (onDBusFontSizeChanged s iface).2
      = (if QReal.ne iface.propertySystemFontPointSize s.m_fontSize = true
          then [Signal.fontSizeChanged] else []) ∧
    (onDBusFontFamilyChanged s iface).1
      = { s with m_fontFamily := (onDBusFontFamilyChanged s iface).1.m_fontFamily } ∧
    (onDBusFontFamilyChanged s iface).2
      = (if iface.propertySystemFont = s.m_fontFamily then [] else [Signal.fontFamilyChanged]) ∧
    (onDBusAccentColorChanged k s c).1
      = { s with m_accentColorIndex := (onDBusAccentColorChanged k s c).1.m_accentColorIndex,
                 m_accentColor := (onDBusAccentColorChanged k s c).1.m_accentColor } ∧
    (onDBusAccentColorChanged k s c).2
      = (if c = s.m_accentColorIndex then [] else [Signal.accentColorChanged]) ∧
    (setAccentColor k s c).1
      = { s with m_accentColorIndex := (setAccentColor k s c).1.m_accentColorIndex,
                 m_accentColor := (setAccentColor k s c).1.m_accentColor } ∧
    (setAccentColor k s c).2
      = (if c = s.m_accentColorIndex then [] else [Signal.accentColorChanged]) := by
  have hacc : (setAccentColor k s c).1
        = { s with m_accentColorIndex := (setAccentColor k s c).1.m_accentColorIndex,
                   m_accentColor := (setAccentColor k s c).1.m_accentColor } ∧
      (setAccentColor k s c).2
        = (if c = s.m_accentColorIndex then [] else [Signal.accentColorChanged]) := by
    by_cases hc : s.m_accentColorIndex = c
    · rw [setAccentColor_same k s c hc, if_pos hc.symm]
      exact ⟨rfl, rfl⟩
    · rw [setAccentColor_changed k s c hc, if_neg (Ne.symm hc)]
      exact ⟨rfl, rfl⟩
  refine ⟨?_, ?_, ?_, ?_, ?_, ?_, hacc.1, hacc.2, hacc.1, hacc.2⟩
  · by_cases h : v = s.m_darkMode
    · rw [onDBusDarkModeChanged_same s v h]
    · rw [onDBusDarkModeChanged_changed s v h]
  · by_cases h : v = s.m_darkMode
    · rw [onDBusDarkModeChanged_same s v h, if_pos h]
    · rw [onDBusDarkModeChanged_changed s v h, if_neg h]
  · cases h : QReal.ne iface.propertySystemFontPointSize s.m_fontSize
    · rw [onDBusFontSizeChanged_same s iface h]
    · rw [onDBusFontSizeChanged_changed s iface h]
  · cases h : QReal.ne iface.propertySystemFontPointSize s.m_fontSize
    · rw [onDBusFontSizeChanged_same s iface h]; rfl
    · rw [onDBusFontSizeChanged_changed s iface h]; rfl
  · by_cases h : iface.propertySystemFont = s.m_fontFamily
    · rw [onDBusFontFamilyChanged_same s iface h]
    · rw [onDBusFontFamilyChanged_changed s iface h]
  · by_cases h : iface.propertySystemFont = s.m_fontFamily
    · rw [onDBusFontFamilyChanged_same s iface h, if_pos h]
    · rw [onDBusFontFamilyChanged_changed s iface h, if_neg h]

/-- C10 (notification trace of a successful `initData`): for every prior state
and every valid interface reporting accent code `c`, the signal list is
`accentColorChanged` if and only if `c` differs from the prior cached index,
followed by `fontSizeChanged`, `fontFamilyChanged`, `darkModeChanged` in that
order; and a second `initData` on the same interface returns the state of the
first run unchanged with exactly `fontSizeChanged`, `fontFamilyChanged`,
`darkModeChanged`.  The members are written as well as notified: afterwards
`m_darkMode`, `m_accentColorIndex`, `m_fontSize` and `m_fontFamily` hold the
reported values, `m_accentColor` is the palette colour of `c` when `c`
differs from the prior index and the prior colour otherwise, and the
subscriptions are untouched. -/
theorem C10_initData_trace (k : ThemeConstants) (s : ThemeManager) (iface : QDBusInterface)
    (hv : iface.isValid = true) :
    (initData k s iface).2
      = (if iface.accentColor = s.m_accentColorIndex then [] else [Signal.accentColorChanged])
        ++ [Signal.fontSizeChanged, Signal.fontFamilyChanged, Signal.darkModeChanged] ∧
    initData k (initData k s iface).1 iface
      = ((initData k s iface).1,
         [Signal.fontSizeChanged, Signal.fontFamilyChanged, Signal.darkModeChanged]) ∧
    (initData k s iface).1.m_darkMode = iface.isDarkMode ∧
    (initData k s iface).1.m_accentColorIndex = iface.accentColor ∧
    (initData k s iface).1.m_accentColor
      = (if iface.accentColor = s.m_accentColorIndex then s.m_accentColor
          else palette k iface.accentColor) ∧
    (initData k s iface).1.m_fontSize = iface.systemFontPointSize ∧
    (initData k s iface).1.m_fontFamily = iface.systemFont ∧
    (initData k s iface).1.subscriptions = s.subscriptions := by
  have hidx : (initData k s iface).1.m_accentColorIndex = iface.accentColor := by
    rw [initData_valid k s iface hv]
    exact setAccentColor_index k _ _
  have hdark : (initData k s iface).1.m_darkMode = iface.isDarkMode := by
    rw [initData_valid k s iface hv]
    show (setAccentColor k { s with m_darkMode := iface.isDarkMode } iface.accentColor).1.m_darkMode
      = iface.isDarkMode
    by_cases he : s.m_accentColorIndex = iface.accentColor
    · rw [setAccentColor_same k { s with m_darkMode := iface.isDarkMode } _ he]
    · rw [setAccentColor_changed k { s with m_darkMode := iface.isDarkMode } _ he]
  have hsize : (initData k s iface).1.m_fontSize = iface.systemFontPointSize := by
    rw [initData_valid k s iface hv]
  have hfam : (initData k s iface).1.m_fontFamily = iface.systemFont := by
    rw [initData_valid k s iface hv]
  have hcol : (initData k s iface).1.m_accentColor
      = (if iface.accentColor = s.m_accentColorIndex then s.m_accentColor
          else palette k iface.accentColor) := by
    rw [initData_valid k s iface hv]
    by_cases he : s.m_accentColorIndex = iface.accentColor
    · rw [setAccentColor_same k { s with m_darkMode := iface.isDarkMode } _ he, if_pos he.symm]
    · rw [setAccentColor_changed k { s with m_darkMode := iface.isDarkMode } _ he,
        if_neg (Ne.symm he)]
  have hsub : (initData k s iface).1.subscriptions = s.subscriptions := by
    rw [initData_valid k s iface hv]
    by_cases he : s.m_accentColorIndex = iface.accentColor
    · rw [setAccentColor_same k { s with m_darkMode := iface.isDarkMode } _ he]
    · rw [setAccentColor_changed k { s with m_darkMode := iface.isDarkMode } _ he]
  refine ⟨?_, ?_, hdark, hidx, hcol, hsize, hfam, hsub⟩
  · rw [initData_valid k s iface hv]
    by_cases he : s.m_accentColorIndex = iface.accentColor
    · rw [setAccentColor_same k { s with m_darkMode := iface.isDarkMode } _ he, if_pos he.symm]
    · rw [setAccentColor_changed k { s with m_darkMode := iface.isDarkMode } _ he,
        if_neg (Ne.symm he)]
  · generalize initData k s iface = r at hidx hdark hsize hfam
    obtain ⟨t, e⟩ := r
    rw [initData_valid k t iface hv]
    have hidx2 : ({ t with m_darkMode := iface.isDarkMode } : ThemeManager).m_accentColorIndex
        = iface.accentColor := hidx
    rw [setAccentColor_same k { t with m_darkMode := iface.isDarkMode } _ hidx2]
    cases t
    simp only at hidx hdark hsize hfam
    subst hidx hdark hsize hfam
    rfl

/-- C10, evaluated on the scenario of the spec: from the defaults the first
`initData` emits `accentColorChanged`, `fontSizeChanged`, `fontFamilyChanged`,
`darkModeChanged`; the second emits the last three only and returns the same
state; the first run left dark mode on, index 2, the colour of GREEN, 11.5 and
"DejaVu Sans" in the cache. -/
theorem C10_initData_trace_witness :
    sampleProvider.isValid = true ∧
    (initData sampleConstants (ThemeManager.memberInit sampleConstants) sampleProvider).2
      = [Signal.accentColorChanged, Signal.fontSizeChanged, Signal.fontFamilyChanged,
         Signal.darkModeChanged] ∧
    initData sampleConstants
        (initData sampleConstants (ThemeManager.memberInit sampleConstants) sampleProvider).1
        sampleProvider
      = ((initData sampleConstants (ThemeManager.memberInit sampleConstants) sampleProvider).1,
         [Signal.fontSizeChanged, Signal.fontFamilyChanged, Signal.darkModeChanged]) ∧
    (initData sampleConstants (ThemeManager.memberInit sampleConstants) sampleProvider).1.m_darkMode
      = true ∧
    (initData sampleConstants (ThemeManager.memberInit sampleConstants) sampleProvider).1.m_accentColorIndex
      = 2 ∧
    (initData sampleConstants (ThemeManager.memberInit sampleConstants) sampleProvider).1.m_accentColor
      = sampleConstants.m_greenColor ∧
    (initData sampleConstants (ThemeManager.memberInit sampleConstants) sampleProvider).1.m_fontSize
      = QReal.elevenAndHalf ∧
    (initData sampleConstants (ThemeManager.memberInit sampleConstants) sampleProvider).1.m_fontFamily
      = "DejaVu Sans" ∧
    (initData sampleConstants (ThemeManager.memberInit sampleConstants) sampleProvider).1.subscriptions
      = [] :=
  ⟨rfl,
   C10_initData_trace sampleConstants (ThemeManager.memberInit sampleConstants)
     sampleProvider rfl⟩

end FishUI
